import Mathlib

/-!
Verification development for the HNA application's two core components:

* the catalog search engine of `main.py` (`preprocess_text`,
  `advanced_similarity_search`), and
* the dynamic-schema ingestion pipeline of `models_penunjang.py`
  (`PemeriksaanPenunjang.upload_excel` / `load_data`).

Conventions of the shallow embedding:

* Python strings are modelled as Lean `String`s; `str.lower()` is modelled on
  the ASCII range (the fragment exercised by the catalog data).
* A missing (`NaN`) cell or field value is modelled as `none : Option String`.
* The external fuzzy scorer (`fuzzywuzzy.process` with its default token-based
  metric) is a parameter `score : String → String → Nat`; `process.extract`'s
  documented behaviour of returning its results sorted by score in descending
  order and truncated to `limit` is modelled explicitly.
* `pandas.Series.str.contains` uses regular-expression search by default; the
  embedding models `re.search` on the pattern fragment in which every pattern
  character is a literal except the wildcard `.` (richer regex syntax is not
  exercised by the claims).
-/

/-! ## Text normalization (`main.py`, `preprocess_text`) -/

/-- ASCII lower-casing of a string, modelling Python `str.lower()` on the
ASCII fragment. -/
def pyLower (s : String) : String :=
  String.mk (s.data.map Char.toLower)

/-- The whitespace class of Python `str.strip()` and of the regex class
`\s` (ASCII fragment): space, tab, newline, carriage return, vertical tab,
form feed. -/
def isSpaceChar (c : Char) : Bool :=
  c == ' ' || c == '\t' || c == '\n' || c == '\r' || c == '\x0b' || c == '\x0c'

/-- The regex word class `\w` (ASCII fragment): alphanumeric or underscore. -/
def isWordChar (c : Char) : Bool :=
  c.isAlphanum || c == '_'

/-- Python `str.strip()`: drop leading and trailing whitespace. -/
def stripChars (l : List Char) : List Char :=
  ((l.dropWhile isSpaceChar).reverse.dropWhile isSpaceChar).reverse

/-- Embedding of `re.sub(r'[^\w\s]', ' ', text)`: every character that is
neither a word character nor whitespace becomes a space. -/
def subSpecials (l : List Char) : List Char :=
  l.map (fun c => if isWordChar c || isSpaceChar c then c else ' ')

/-- Worker for `collapseSpaces`; the flag records whether the previous
character was whitespace (i.e. a space has already been emitted for the
current whitespace run). -/
def collapseAux : Bool → List Char → List Char
  | _, [] => []
  | prev, c :: cs =>
    if isSpaceChar c then
      if prev then collapseAux true cs else ' ' :: collapseAux true cs
    else c :: collapseAux false cs

/-- Embedding of `re.sub(r'\s+', ' ', text)`: each maximal run of whitespace
characters becomes a single space. -/
def collapseSpaces (l : List Char) : List Char :=
  collapseAux false l

/-- Embedding of `preprocess_text` (`main.py` lines 43-51): `None`/`NaN`
normalizes to `""`; otherwise lower-case, strip, replace special characters
by spaces, then collapse whitespace runs — in that order. -/
def preprocess_text : Option String → String
  | none => ""
  | some s => String.mk (collapseSpaces (subSpecials (stripChars ((pyLower s).data))))

/-- The normalization recipe as the specification words it, applied in the
listed order: lower-case, trim, collapse each whitespace run to one space,
and replace every character that is neither alphanumeric nor whitespace with
a space (underscore is not exempted). Used to compare the spec's description
of `preprocess_text` with the source. -/
def specCollapse : List Char → List Char
  | [] => []
  | [c] => if isSpaceChar c then [' '] else [c]
  | c :: c2 :: cs =>
    if isSpaceChar c && isSpaceChar c2 then specCollapse (c2 :: cs)
    else (if isSpaceChar c then ' ' else c) :: specCollapse (c2 :: cs)

/-- Replacement step as the spec words it: every character that is neither
alphanumeric nor whitespace becomes a space. -/
def specReplace (l : List Char) : List Char :=
  l.map (fun c => if c.isAlphanum || isSpaceChar c then c else ' ')

/-- The spec's normalization recipe, steps taken in the spec's listed order. -/
def specNormalize : Option String → String
  | none => ""
  | some s => String.mk (specReplace (specCollapse (stripChars ((pyLower s).data))))

/-- Replacement step of the amended recipe: every character that is neither
alphanumeric nor underscore nor whitespace becomes a space. -/
def amendReplace (l : List Char) : List Char :=
  l.map (fun c => if c.isAlphanum || c == '_' || isSpaceChar c then c else ' ')

/-- The amended normalization recipe: lower-case, trim, replace every
character that is neither alphanumeric nor underscore nor whitespace with a
space, and then collapse each whitespace run to a single space. -/
def amendedNormalize : Option String → String
  | none => ""
  | some s => String.mk (specCollapse (amendReplace (stripChars ((pyLower s).data))))

/-! ## Catalog search engine (`main.py`, `advanced_similarity_search`) -/

/-- A row of the working set handed to the search engine: the searched column
(`nama_barang`) may be null; `tag` stands for all remaining columns and keeps
distinct rows distinguishable. -/
structure SRow where
  field : Option String
  tag : Nat
  deriving DecidableEq, Repr

/-- Exact tier predicate (`df[column].str.lower() == query.lower()`): a null
field never matches. -/
def fieldExact (query : String) (r : SRow) : Bool :=
  match r.field with
  | some v => pyLower v == pyLower query
  | none => false

/-- Pattern match at the start of the text, for patterns made of literal
characters and the `.` wildcard. -/
def patMatchAt : List Char → List Char → Bool
  | [], _ => true
  | _ :: _, [] => false
  | p :: ps, c :: cs => (p == '.' || p == c) && patMatchAt ps cs

/-- Embedding of `re.search` on the literal-plus-`.` pattern fragment: does
the pattern match at some position of the text? -/
def patSearch : List Char → List Char → Bool
  | p, [] => patMatchAt p []
  | p, c :: cs => patMatchAt p (c :: cs) || patSearch p cs

/-- Substring tier predicate
(`df[column].str.lower().str.contains(query.lower(), na=False)`): the query
is used as a regex pattern searched in the lowered field value; null fields
never match (`na=False`). -/
def fieldContains (query : String) (r : SRow) : Bool :=
  match r.field with
  | some v => patSearch (pyLower query).data (pyLower v).data
  | none => false

/-- Literal (non-regex) case-insensitive prefix test, used to state the
spec's notion of "containment". -/
def litMatchAt : List Char → List Char → Bool
  | [], _ => true
  | _ :: _, [] => false
  | p :: ps, c :: cs => p == c && litMatchAt ps cs

/-- Literal substring test (the spec's notion of containment). -/
def litSub : List Char → List Char → Bool
  | p, [] => litMatchAt p []
  | p, c :: cs => litMatchAt p (c :: cs) || litSub p cs

/-- The spec's substring-tier predicate: literal case-insensitive containment
of the query within the field value. -/
def fieldContainsLit (query : String) (r : SRow) : Bool :=
  match r.field with
  | some v => litSub (pyLower query).data (pyLower v).data
  | none => false

/-- Worker for `uniqueFirst`, carrying the set of values already seen. -/
def uniqueAux : List String → List String → List String
  | [], _ => []
  | x :: xs, seen =>
    if seen.contains x then uniqueAux xs seen else x :: uniqueAux xs (x :: seen)

/-- Embedding of `pandas.Series.unique()`: distinct values in order of first
occurrence. -/
def uniqueFirst (l : List String) : List String :=
  uniqueAux l []

/-- Insert into a descending-sorted list of scores. -/
def insDesc (x : Nat) : List Nat → List Nat
  | [] => [x]
  | y :: ys => if x ≤ y then y :: insDesc x ys else x :: y :: ys

/-- Sort scores in descending order (the order in which `process.extract`
returns its results). -/
def sortDesc : List Nat → List Nat
  | [] => []
  | x :: xs => insDesc x (sortDesc xs)

/-- Embedding of the fuzzy tier's selection (`main.py` lines 74-82): the
candidates are scored after preprocessing, `process.extract` yields the
scores sorted descending and truncated to `limit`, and the source then zips
that score list positionally against the *unsorted* candidate list, keeping
each original candidate whose *positional* score reaches the threshold. -/
def fuzzyMatchedNames (score : String → String → Nat) (queryP : String)
    (choices : List String) (threshold limit : Nat) : List String :=
  let sortedScores :=
    (sortDesc (choices.map (fun c => score queryP (preprocess_text (some c))))).take limit
  ((choices.zip sortedScores).filter (fun p => threshold ≤ p.2)).map (fun p => p.1)

/-- Membership of a row's field value in a list of retained names
(`df[column].isin(matched_original_names)`); null fields never match. -/
def fieldIn (names : List String) (r : SRow) : Bool :=
  match r.field with
  | some v => names.contains v
  | none => false

/-- Embedding of `advanced_similarity_search` (`main.py` lines 53-87),
parametrized by the external token-based scorer. Tier order: empty-query /
empty-input short-circuit, empty candidate set, exact tier, substring
(regex) tier, fuzzy tier. -/
def advanced_similarity_search (score : String → String → Nat) (rows : List SRow)
    (query : String) (threshold limit : Nat) : List SRow :=
  if query = "" ∨ rows = [] then rows
  else if uniqueFirst (rows.filterMap (fun r => r.field)) = [] then []
  else if rows.filter (fieldExact query) ≠ [] then rows.filter (fieldExact query)
  else if rows.filter (fieldContains query) ≠ [] then rows.filter (fieldContains query)
  else
    let matched := fuzzyMatchedNames score (preprocess_text (some query))
      (uniqueFirst (rows.filterMap (fun r => r.field))) threshold limit
    if matched ≠ [] then rows.filter (fieldIn matched) else []

/-- A degenerate scorer, usable whenever the fuzzy tier is not reached. -/
def trivialScorer (_q _c : String) : Nat := 0

/-- Point model of the external token-based scorer at the two candidate
strings of the fuzzy-tier failing input: against query `"abcd"` the candidate
`"abce"` scores 75 (three of four characters agree, `2*3/(4+4) = 75%`) and
the unrelated candidate `"wxyz"` scores 0. -/
def exampleScorer (q c : String) : Nat :=
  if q == "abcd" && c == "abce" then 75 else 0

/-! ## Dynamic-schema ingestion pipeline (`models_penunjang.py`) -/

/-- One entry of the column registry (`pemeriksaan_columns_metadata`):
`column_name` is the unique key, `display_name` defaults to the column name,
`created_by` records the uploader. -/
structure RegistryEntry where
  column_name : String
  display_name : String
  created_by : String
  deriving DecidableEq, Repr

/-- One persisted examination row (`pemeriksaan_penunjang`). Cells of the
fixed columns may be null; the additional-data payload is the key→text
mapping serialized as JSON by the source. -/
structure PenunjangRecord where
  mitra : String
  kode : Option String
  deskripsi : Option String
  group_transaksi : Option String
  satuan : Option String
  additional_data : List (String × String)
  uploaded_by : String
  deriving DecidableEq, Repr

/-- The relational store as seen through the shared session: committed
registry entries, committed examination rows, and rows already sent to the
store by `execute` but not yet committed. -/
structure DBState where
  registry : List RegistryEntry
  records : List PenunjangRecord
  pending : List PenunjangRecord
  deriving DecidableEq, Repr

/-- `session.commit()`: everything pending becomes durable. -/
def commitDB (db : DBState) : DBState :=
  { db with records := db.records ++ db.pending, pending := [] }

/-- The uploaded spreadsheet after `pd.read_excel`: a header row and data
rows; a blank cell reads as `NaN`, modelled as `none`. Cell values are
modelled as text (the source coerces them with `str(...)` before storing). -/
structure InputFile where
  header : List String
  rows : List (List (Option String))
  deriving DecidableEq, Repr

/-- Outcome reported to the user by `upload_excel`: a structural error naming
a missing required column, a generic upload error (the outer `except` path),
or success with the count of inserted rows. -/
inductive UploadResult where
  | structuralError (col : String)
  | uploadError
  | success (count : Nat)
  deriving DecidableEq, Repr

/-- The required fixed columns of the examination variant
(`expected_base_cols`). -/
def requiredCols : List String :=
  ["KODE", "DESKRIPSI", "GROUP TRANSAKSI", "SATUAN"]

/-- The validation loop: the first required column absent from the header,
if any. -/
def findMissing (header : List String) : Option String :=
  requiredCols.find? (fun c => decide (c ∉ header))

/-- Columns of the header that are not required ones (`additional_cols`). -/
def additionalCols (header : List String) : List String :=
  header.filter (fun c => decide (c ∉ requiredCols))

/-- Cell of a row under a column name: position of the column in the header,
then the cell at that position (`none` when the column is absent or the cell
is blank). -/
def cellOf (header : List String) (row : List (Option String)) (c : String) :
    Option String :=
  match header.findIdx? (fun h => h == c) with
  | some i => (row.get? i).join
  | none => none

/-- The skip test of the row loop: a row is retained exactly when its `KODE`
and `DESKRIPSI` cells are both present (`pd.isna` on either one skips). -/
def rowRetained (header : List String) (row : List (Option String)) : Bool :=
  (cellOf header row "KODE").isSome && (cellOf header row "DESKRIPSI").isSome

/-- The additional-data payload of a row: for each additional column in
header order, the cell value when present; blank cells are omitted. -/
def buildPayload (header : List String) (row : List (Option String)) :
    List (String × String) :=
  (additionalCols header).filterMap (fun c => (cellOf header row c).map (fun v => (c, v)))

/-- The record inserted for a retained row. -/
def buildRecord (header : List String) (row : List (Option String))
    (mitra user : String) : PenunjangRecord :=
  { mitra := mitra
    kode := cellOf header row "KODE"
    deskripsi := cellOf header row "DESKRIPSI"
    group_transaksi := cellOf header row "GROUP TRANSAKSI"
    satuan := cellOf header row "SATUAN"
    additional_data := buildPayload header row
    uploaded_by := user }

/-- `INSERT IGNORE` into the column registry: a no-op when an entry with the
same column name exists, otherwise a new entry whose display name defaults to
the column name. -/
def registerColumn (reg : List RegistryEntry) (c user : String) :
    List RegistryEntry :=
  if reg.any (fun e => e.column_name == c) then reg
  else reg ++ [{ column_name := c, display_name := c, created_by := user }]

/-- Registration of every additional column, in header order. -/
def registerAll (reg : List RegistryEntry) (cols : List String) (user : String) :
    List RegistryEntry :=
  cols.foldl (fun r c => registerColumn r c user) reg

/-- Embedding of `PemeriksaanPenunjang.upload_excel` (`models_penunjang.py`
lines 10-78). Control flow of the source: validate the header (error out
naming the first missing required column, touching nothing); register the
additional columns and commit; then insert one record per retained row and
commit. `failAt` models a storage fault: `some k` makes the `k`-th row
insert (0-based, among retained rows) raise, which the outer `except`
reports as an upload error — the source performs no rollback, so the rows
executed before the fault stay pending on the shared session. -/
def upload_excel (db : DBState) (f : InputFile) (mitra user : String)
    (failAt : Option Nat) : DBState × UploadResult :=
  match findMissing f.header with
  | some c => (db, .structuralError c)
  | none =>
    let db1 := commitDB { db with registry := registerAll db.registry (additionalCols f.header) user }
    let recs := (f.rows.filter (rowRetained f.header)).map
      (fun r => buildRecord f.header r mitra user)
    match failAt with
    | some k =>
      if k < recs.length then
        ({ db1 with pending := db1.pending ++ recs.take k }, .uploadError)
      else
        (commitDB { db1 with pending := db1.pending ++ recs }, .success recs.length)
    | none =>
      (commitDB { db1 with pending := db1.pending ++ recs }, .success recs.length)

/-- Embedding of `load_data`'s decoding of a stored record's additional data:
`json.loads` inverts the `json.dumps` applied at ingestion on a key→text
mapping, so loading recovers exactly the payload built at ingestion. -/
def load_additional (r : PenunjangRecord) : List (String × String) :=
  r.additional_data

/-! ## Helper lemmas -/

/-- The two replacement steps agree: the source's `\w` class is exactly
"alphanumeric or underscore". -/
lemma subSpecials_eq_amendReplace (l : List Char) : subSpecials l = amendReplace l := by
  unfold subSpecials amendReplace
  induction l with
  | nil => rfl
  | cons c cs ih =>
    simp only [List.map_cons]
    rw [ih]
    rfl

/-- Collapsing whitespace runs computed with the carried flag agrees with the
direct two-character recursion. -/
lemma collapseAux_false_eq_specCollapse (l : List Char) :
    collapseAux false l = specCollapse l := by
  induction l with
  | nil => rfl
  | cons c cs ih =>
    cases cs with
    | nil =>
      cases h : isSpaceChar c <;> simp [collapseAux, specCollapse, h]
    | cons c2 cs2 =>
      cases h1 : isSpaceChar c <;> cases h2 : isSpaceChar c2 <;>
        simp [collapseAux, specCollapse, h1, h2, ← ih]

/-- A non-empty list keeps a first element after deduplication. -/
lemma uniqueFirst_ne_nil (l : List String) (h : l ≠ []) : uniqueFirst l ≠ [] := by
  cases l with
  | nil => exact absurd rfl h
  | cons x xs => simp [uniqueFirst, uniqueAux]

/-- Claim C4 (counterexample): on the input `"a. b_c"` the source
normalization and the spec's recipe (taken in its stated order, underscores
not exempted) disagree: the source yields `"a b_c"`, the recipe `"a  b c"`. -/
theorem preprocess_differs_from_spec_recipe :
    preprocess_text (some "a. b_c") ≠ specNormalize (some "a. b_c") := by decide

/-- Claim C4 (amended): normalization maps a missing value to `""` and
otherwise lower-cases, trims, replaces every character that is neither
alphanumeric nor underscore nor whitespace with a space, and then collapses
each whitespace run to a single space (in that order, so a replaced boundary
character can leave a single leading or trailing space). -/
theorem preprocess_matches_amended_recipe (t : Option String) :
    preprocess_text t = amendedNormalize t := by
  cases t with
  | none => rfl
  | some s =>
    show String.mk (collapseSpaces (subSpecials (stripChars ((pyLower s).data))))
        = String.mk (specCollapse (amendReplace (stripChars ((pyLower s).data))))
    unfold collapseSpaces
    rw [subSpecials_eq_amendReplace, collapseAux_false_eq_specCollapse]

/-- Claim C10: in every tier and in both short-circuits, the search result is
a sublist of the input working set — rows are only ever filtered, never
fabricated, duplicated, modified or reordered. -/
theorem search_result_sublist_of_input (score : String → String → Nat)
    (rows : List SRow) (query : String) (threshold limit : Nat) :
    List.Sublist (advanced_similarity_search score rows query threshold limit) rows := by
  unfold advanced_similarity_search
  split
  · exact List.Sublist.refl rows
  · split
    · exact List.nil_sublist rows
    · split
      · exact List.filter_sublist rows
      · split
        · exact List.filter_sublist rows
        · dsimp only
          split
          · exact List.filter_sublist rows
          · exact List.nil_sublist rows

/-- Claim C2 (counterexample): with rows whose field values are `""` and
`"x"` and the empty query — which is case-insensitively equal to the first
row's field value — the search returns the whole input (the empty-query
short-circuit precedes the exact tier), not just the rows with that exact
value. -/
theorem exact_claim_fails_on_empty_query :
    (∃ r ∈ [(⟨some "", 0⟩ : SRow), ⟨some "x", 1⟩], fieldExact "" r = true) ∧
    advanced_similarity_search trivialScorer [⟨some "", 0⟩, ⟨some "x", 1⟩] "" 85 20
      ≠ [(⟨some "", 0⟩ : SRow), ⟨some "x", 1⟩].filter (fieldExact "") :=
  ⟨by decide, by decide⟩

/-- Claim C2 (amended): for every non-empty query that is case-insensitively
equal to the field value of at least one input row, the search returns
exactly the rows whose field value equals the query case-insensitively, for
every threshold and limit — the exact tier wins and the later tiers never
run. -/
theorem exact_tier_returns_exact_matches (score : String → String → Nat)
    (rows : List SRow) (query : String) (threshold limit : Nat)
    (hq : query ≠ "")
    (hex : ∃ r ∈ rows, fieldExact query r = true) :
    advanced_similarity_search score rows query threshold limit
      = rows.filter (fieldExact query) := by
  obtain ⟨r, hr, hfe⟩ := hex
  have hrows : rows ≠ [] := List.ne_nil_of_mem hr
  have hmemf : r ∈ rows.filter (fieldExact query) := List.mem_filter.mpr ⟨hr, hfe⟩
  have hfil : rows.filter (fieldExact query) ≠ [] := List.ne_nil_of_mem hmemf
  obtain ⟨v, hv⟩ : ∃ v, r.field = some v := by
    cases hrf : r.field with
    | none => unfold fieldExact at hfe; rw [hrf] at hfe; simp at hfe
    | some v => exact ⟨v, rfl⟩
  have hvmem : v ∈ rows.filterMap (fun r => r.field) :=
    List.mem_filterMap.mpr ⟨r, hr, hv⟩
  have hchoices : uniqueFirst (rows.filterMap (fun r => r.field)) ≠ [] :=
    uniqueFirst_ne_nil _ (List.ne_nil_of_mem hvmem)
  unfold advanced_similarity_search
  rw [if_neg (by push_neg; exact ⟨hq, hrows⟩), if_neg hchoices, if_pos hfil]

/-- Claim C2 witness: at a concrete input with an exact match the amended
statement is realized (this is also the spec's own example: the exact tier
returns only the `"Paracetamol"` row, never the `"Paracetamol 500mg"` one). -/
theorem exact_tier_returns_exact_matches_witness :
    (("Paracetamol" : String) ≠ "" ∧
      ∃ r ∈ [(⟨some "Paracetamol 500mg", 0⟩ : SRow), ⟨some "Paracetamol", 1⟩],
        fieldExact "Paracetamol" r = true) ∧
    advanced_similarity_search trivialScorer
        [⟨some "Paracetamol 500mg", 0⟩, ⟨some "Paracetamol", 1⟩] "Paracetamol" 99 5
      = [(⟨some "Paracetamol 500mg", 0⟩ : SRow), ⟨some "Paracetamol", 1⟩].filter
          (fieldExact "Paracetamol") :=
  ⟨⟨by decide, by decide⟩,
    exact_tier_returns_exact_matches trivialScorer _ _ 99 5 (by decide) (by decide)⟩

/-- Claim C3 (counterexample): `pandas.Series.str.contains` treats the query
as a regular-expression pattern, not as a literal substring. With the query
`"a.c"` and field values `"xa.cx"` (a literal container) and `"abc"` (matched
only through the `.` wildcard), no exact match exists, yet the search returns
both rows while the rows containing the query literally are just the first. -/
theorem substring_claim_fails_on_regex_pattern :
    [(⟨some "xa.cx", 0⟩ : SRow), ⟨some "abc", 1⟩].filter (fieldExact "a.c") = [] ∧
    [(⟨some "xa.cx", 0⟩ : SRow), ⟨some "abc", 1⟩].filter (fieldContainsLit "a.c")
      = [⟨some "xa.cx", 0⟩] ∧
    advanced_similarity_search trivialScorer [⟨some "xa.cx", 0⟩, ⟨some "abc", 1⟩] "a.c" 85 20
      ≠ [(⟨some "xa.cx", 0⟩ : SRow), ⟨some "abc", 1⟩].filter (fieldContainsLit "a.c") :=
  ⟨by decide, by decide, by decide⟩

/-- Claim C3 (amended): for a non-empty query, when no row's field value is
case-insensitively equal to the query and at least one row's lowered field
value matches the lowered query used as a regex pattern (literal containment
whenever the query has no metacharacters), the search returns exactly those
pattern-matching rows and the fuzzy tier never runs. -/
theorem substring_tier_returns_pattern_matches (score : String → String → Nat)
    (rows : List SRow) (query : String) (threshold limit : Nat)
    (hq : query ≠ "")
    (hex : rows.filter (fieldExact query) = [])
    (hc : rows.filter (fieldContains query) ≠ []) :
    advanced_similarity_search score rows query threshold limit
      = rows.filter (fieldContains query) := by
  obtain ⟨r, hmem⟩ := List.exists_mem_of_ne_nil _ hc
  have hr : r ∈ rows := (List.mem_filter.mp hmem).1
  have hfc : fieldContains query r = true := (List.mem_filter.mp hmem).2
  have hrows : rows ≠ [] := List.ne_nil_of_mem hr
  obtain ⟨v, hv⟩ : ∃ v, r.field = some v := by
    cases hrf : r.field with
    | none => unfold fieldContains at hfc; rw [hrf] at hfc; simp at hfc
    | some v => exact ⟨v, rfl⟩
  have hvmem : v ∈ rows.filterMap (fun r => r.field) :=
    List.mem_filterMap.mpr ⟨r, hr, hv⟩
  have hchoices : uniqueFirst (rows.filterMap (fun r => r.field)) ≠ [] :=
    uniqueFirst_ne_nil _ (List.ne_nil_of_mem hvmem)
  unfold advanced_similarity_search
  rw [if_neg (by push_neg; exact ⟨hq, hrows⟩), if_neg hchoices,
    if_neg (not_ne_iff.mpr hex), if_pos hc]

/-- Claim C3 witness: a concrete non-exact, substring-matching input realizes
the amended statement. -/
theorem substring_tier_returns_pattern_matches_witness :
    (("paracetamol" : String) ≠ "" ∧
      [(⟨some "Paracetamol 500mg", 0⟩ : SRow)].filter (fieldExact "paracetamol") = [] ∧
      [(⟨some "Paracetamol 500mg", 0⟩ : SRow)].filter (fieldContains "paracetamol") ≠ []) ∧
    advanced_similarity_search trivialScorer [⟨some "Paracetamol 500mg", 0⟩] "paracetamol" 85 20
      = [(⟨some "Paracetamol 500mg", 0⟩ : SRow)].filter (fieldContains "paracetamol") :=
  ⟨⟨by decide, by decide, by decide⟩,
    substring_tier_returns_pattern_matches trivialScorer _ _ 85 20
      (by decide) (by decide) (by decide)⟩

/-- Claim C1: at the failing input the fuzzy tier retains the candidate whose
own score is 0 and returns its rows, while the set of candidates scoring at
least the threshold is exactly the other one. The source zips the
score-sorted, limit-truncated output of `process.extract` positionally
against the unsorted candidate list, so each candidate is paired with the
i-th highest score overall instead of its own. -/
theorem fuzzy_misaligned_scores_at_failing_input :
    advanced_similarity_search exampleScorer
        [⟨some "wxyz", 0⟩, ⟨some "abce", 1⟩] "abcd" 70 20
      = [⟨some "wxyz", 0⟩] ∧
    (uniqueFirst ([(⟨some "wxyz", 0⟩ : SRow), ⟨some "abce", 1⟩].filterMap
        (fun r => r.field))).filter
      (fun c => 70 ≤ exampleScorer (preprocess_text (some "abcd")) (preprocess_text (some c)))
      = ["abce"] :=
  ⟨by decide, by decide⟩

/-! ## Ingestion pipeline theorems -/

/-- Claim C5: whenever the header lacks at least one required column, the
upload fails with a structural error naming a missing required column and
the store is left completely untouched — no row and no registry entry is
persisted, whatever fault pattern the row loop would have had. -/
theorem upload_missing_required_column_fails (db : DBState) (f : InputFile)
    (mitra user : String) (failAt : Option Nat)
    (h : ∃ c ∈ requiredCols, c ∉ f.header) :
    ∃ c ∈ requiredCols, c ∉ f.header ∧
      upload_excel db f mitra user failAt = (db, .structuralError c) := by
  have hne : findMissing f.header ≠ none := by
    intro hnone
    obtain ⟨c, hc, hnotin⟩ := h
    unfold findMissing at hnone
    have := List.find?_eq_none.mp hnone c hc
    simp at this
    exact hnotin this
  cases hfm : findMissing f.header with
  | none => exact absurd hfm hne
  | some c =>
    unfold findMissing at hfm
    have hcmem : c ∈ requiredCols := List.mem_of_find?_eq_some hfm
    have hp := List.find?_some hfm
    simp only [decide_eq_true_eq] at hp
    refine ⟨c, hcmem, hp, ?_⟩
    unfold upload_excel findMissing
    rw [hfm]

/-- Claim C5 witness: a header missing `SATUAN` fails structurally with the
store untouched. -/
theorem upload_missing_required_column_fails_witness :
    (∃ c ∈ requiredCols, c ∉ (["KODE", "DESKRIPSI", "GROUP TRANSAKSI"] : List String)) ∧
    ∃ c ∈ requiredCols, c ∉ (["KODE", "DESKRIPSI", "GROUP TRANSAKSI"] : List String) ∧
      upload_excel ⟨[], [], []⟩
          ⟨["KODE", "DESKRIPSI", "GROUP TRANSAKSI"], [[some "A", some "B", some "C"]]⟩
          "M" "U" none
        = (⟨[], [], []⟩, .structuralError c) :=
  ⟨by decide,
    upload_missing_required_column_fails ⟨[], [], []⟩
      ⟨["KODE", "DESKRIPSI", "GROUP TRANSAKSI"], [[some "A", some "B", some "C"]]⟩
      "M" "U" none (by decide)⟩

/-- Claim C6: on a structurally valid file, every row whose `KODE` or
`DESKRIPSI` cell is missing is skipped — neither persisted nor counted — the
reported count is the number of rows with both cells present, and exactly
the records of the retained rows are appended to the store. -/
theorem upload_skips_blank_rows_and_counts (db : DBState) (f : InputFile)
    (mitra user : String) (h : findMissing f.header = none) :
    (upload_excel db f mitra user none).2 =
      .success ((f.rows.filter (rowRetained f.header)).length) ∧
    (upload_excel db f mitra user none).1.records =
      (db.records ++ db.pending) ++
        (f.rows.filter (rowRetained f.header)).map (fun r => buildRecord f.header r mitra user) := by
  unfold upload_excel
  rw [h]
  constructor
  · simp
  · simp [commitDB]

/-- Claim C6 witness: of two rows, the one with a blank `KODE` is skipped and
the reported count is 1. -/
theorem upload_skips_blank_rows_and_counts_witness :
    (findMissing ["KODE", "DESKRIPSI", "GROUP TRANSAKSI", "SATUAN"] = none) ∧
    (upload_excel ⟨[], [], []⟩
        ⟨["KODE", "DESKRIPSI", "GROUP TRANSAKSI", "SATUAN"],
          [[none, some "X", some "G", some "S"],
           [some "LAB001", some "HEMATOLOGY TEST", some "Lab", some "TEST"]]⟩
        "M" "U" none).2
      = .success 1 := by
  constructor
  · decide
  · rw [(upload_skips_blank_rows_and_counts ⟨[], [], []⟩
      ⟨["KODE", "DESKRIPSI", "GROUP TRANSAKSI", "SATUAN"],
        [[none, some "X", some "G", some "S"],
         [some "LAB001", some "HEMATOLOGY TEST", some "Lab", some "TEST"]]⟩
      "M" "U" (by decide)).1]
    decide

/-- Registering one column preserves "exactly one registry entry is named
`c`". -/
lemma registerColumn_count_one (reg : List RegistryEntry) (x user c : String)
    (h : (reg.filter (fun e => e.column_name == c)).length = 1) :
    ((registerColumn reg x user).filter (fun e => e.column_name == c)).length = 1 := by
  unfold registerColumn
  split
  · exact h
  · rename_i hany
    have hxc : (x == c) = false := by
      cases hbe : (x == c) with
      | false => rfl
      | true =>
        exfalso
        have hx : x = c := eq_of_beq hbe
        subst hx
        have hnil : reg.filter (fun e => e.column_name == x) ≠ [] := by
          intro hnil
          rw [hnil] at h
          simp at h
        obtain ⟨e, he⟩ := List.exists_mem_of_ne_nil _ hnil
        exact hany (List.any_eq_true.mpr
          ⟨e, (List.mem_filter.mp he).1, (List.mem_filter.mp he).2⟩)
    simp [List.filter_append, hxc, h]

/-- Registering a batch of columns preserves "exactly one registry entry is
named `c`". -/
lemma registerAll_count_one (cols : List String) (reg : List RegistryEntry)
    (user c : String)
    (h : (reg.filter (fun e => e.column_name == c)).length = 1) :
    ((registerAll reg cols user).filter (fun e => e.column_name == c)).length = 1 := by
  induction cols generalizing reg with
  | nil => exact h
  | cons x xs ih => exact ih _ (registerColumn_count_one reg x user c h)

/-- Claim C7: registry registration is idempotent insert-if-absent — when an
entry with the column name already exists, registering it again is a no-op
that leaves the registry untouched, and re-ingesting any file leaves a
uniquely-registered column name with exactly one registry entry. -/
theorem registry_insert_if_absent_idempotent
    (reg : List RegistryEntry) (col user : String)
    (db : DBState) (f : InputFile) (mitra u : String) (failAt : Option Nat)
    (hexist : ∃ e ∈ reg, e.column_name = col)
    (hone : (db.registry.filter (fun e => e.column_name == col)).length = 1) :
    registerColumn reg col user = reg ∧
    ((upload_excel db f mitra u failAt).1.registry.filter
      (fun e => e.column_name == col)).length = 1 := by
  constructor
  · unfold registerColumn
    rw [if_pos]
    obtain ⟨e, he, hname⟩ := hexist
    exact List.any_eq_true.mpr ⟨e, he, by rw [hname]; exact beq_self_eq_true col⟩
  · cases hfm : findMissing f.header with
    | some c =>
      unfold upload_excel
      rw [hfm]
      exact hone
    | none =>
      have hreg := registerAll_count_one (additionalCols f.header) db.registry u col hone
      unfold upload_excel
      rw [hfm]
      have hpr : ∀ st : DBState × UploadResult,
          st.1.registry = registerAll db.registry (additionalCols f.header) u →
          ((st.1.registry.filter (fun e => e.column_name == col)).length = 1) := by
        intro st hst
        rw [hst]
        exact hreg
      apply hpr
      cases failAt with
      | none => rfl
      | some k =>
        dsimp only
        split <;> rfl

/-- Claim C7 witness: re-ingesting a file carrying the already-registered
additional column `KELAS` keeps exactly one `KELAS` registry entry. -/
theorem registry_insert_if_absent_idempotent_witness :
    ((∃ e ∈ [(⟨"KELAS", "KELAS", "bob"⟩ : RegistryEntry)], e.column_name = "KELAS") ∧
      (([(⟨"KELAS", "KELAS", "bob"⟩ : RegistryEntry)]).filter
        (fun e => e.column_name == "KELAS")).length = 1) ∧
    registerColumn [⟨"KELAS", "KELAS", "bob"⟩] "KELAS" "alice" = [⟨"KELAS", "KELAS", "bob"⟩] ∧
    ((upload_excel ⟨[⟨"KELAS", "KELAS", "bob"⟩], [], []⟩
        ⟨["KODE", "DESKRIPSI", "GROUP TRANSAKSI", "SATUAN", "KELAS"],
          [[some "LAB001", some "HEB", some "Lab", some "TEST", some "A"]]⟩
        "M" "alice" none).1.registry.filter
      (fun e => e.column_name == "KELAS")).length = 1 :=
  ⟨⟨by decide, by decide⟩,
    registry_insert_if_absent_idempotent [⟨"KELAS", "KELAS", "bob"⟩] "KELAS" "alice"
      ⟨[⟨"KELAS", "KELAS", "bob"⟩], [], []⟩
      ⟨["KODE", "DESKRIPSI", "GROUP TRANSAKSI", "SATUAN", "KELAS"],
        [[some "LAB001", some "HEB", some "Lab", some "TEST", some "A"]]⟩
      "M" "alice" none (by decide) (by decide)⟩

/-- A key absent from the column list is absent from the built payload. -/
lemma lookup_filterMap_none (cols : List String) (g : String → Option String)
    (c : String) (hc : c ∉ cols) :
    (cols.filterMap (fun x => (g x).map (fun v => (x, v)))).lookup c = none := by
  induction cols with
  | nil => rfl
  | cons x xs ih =>
    have hxc : x ≠ c := fun h => hc (h ▸ List.mem_cons_self x xs)
    have hcxs : c ∉ xs := fun h => hc (List.mem_cons_of_mem x h)
    cases hgx : g x with
    | none => simp [List.filterMap_cons, hgx, ih hcxs]
    | some v =>
      simp [List.filterMap_cons, hgx, List.lookup, beq_eq_false_iff_ne.mpr (Ne.symm hxc),
        ih hcxs]

/-- Looking a listed key up in the built payload recovers exactly the cell
value: the value when the cell is present, nothing when it is missing. -/
lemma lookup_filterMap_mem (cols : List String) (g : String → Option String)
    (c : String) (hnd : cols.Nodup) (hc : c ∈ cols) :
    (cols.filterMap (fun x => (g x).map (fun v => (x, v)))).lookup c = g c := by
  induction cols with
  | nil => cases hc
  | cons x xs ih =>
    have hx_not : x ∉ xs := (List.nodup_cons.mp hnd).1
    have hnd2 : xs.Nodup := (List.nodup_cons.mp hnd).2
    rcases List.mem_cons.mp hc with hcx | hcxs
    · subst hcx
      cases hgx : g c with
      | some v => simp [List.filterMap_cons, hgx, List.lookup]
      | none => simp [List.filterMap_cons, hgx, lookup_filterMap_none xs g c hx_not]
    · have hxc : x ≠ c := fun h => hx_not (h ▸ hcxs)
      cases hgx : g x with
      | none => simp [List.filterMap_cons, hgx, ih hnd2 hcxs]
      | some v =>
        simp [List.filterMap_cons, hgx, List.lookup, beq_eq_false_iff_ne.mpr (Ne.symm hxc),
          ih hnd2 hcxs]

/-- Claim C8: for every retained row of a structurally valid file with
distinct headers, the record built for it is persisted, and decoding its
stored additional-data payload yields exactly the row's cell under each
additional column — the value itself when the cell is present, and no entry
at all when the cell is missing. -/
theorem additional_data_roundtrip (db : DBState) (f : InputFile)
    (mitra user c : String) (row : List (Option String))
    (hmiss : findMissing f.header = none)
    (hnd : f.header.Nodup)
    (hrow : row ∈ f.rows)
    (hret : rowRetained f.header row = true)
    (hc : c ∈ additionalCols f.header) :
    buildRecord f.header row mitra user ∈ (upload_excel db f mitra user none).1.records ∧
    (load_additional (buildRecord f.header row mitra user)).lookup c
      = cellOf f.header row c := by
  constructor
  · unfold upload_excel
    rw [hmiss]
    simp only [commitDB, List.mem_append]
    right
    right
    exact List.mem_map_of_mem _ (List.mem_filter.mpr ⟨hrow, hret⟩)
  · have hndA : (additionalCols f.header).Nodup := by
      unfold additionalCols
      exact hnd.filter _
    unfold load_additional buildRecord buildPayload
    exact lookup_filterMap_mem _ _ c hndA hc

/-- Claim C8 witness: a row ingested with additional-data `KELAS ↦ "A"` is
persisted and loads back with `additional_data["KELAS"] = "A"`. -/
theorem additional_data_roundtrip_witness :
    (findMissing ["KODE", "DESKRIPSI", "GROUP TRANSAKSI", "SATUAN", "KELAS"] = none ∧
      (["KODE", "DESKRIPSI", "GROUP TRANSAKSI", "SATUAN", "KELAS"] : List String).Nodup ∧
      [some "LAB001", some "HEB", some "Lab", some "TEST", some "A"] ∈
        [[some "LAB001", some "HEB", some "Lab", some "TEST", some "A"]] ∧
      rowRetained ["KODE", "DESKRIPSI", "GROUP TRANSAKSI", "SATUAN", "KELAS"]
        [some "LAB001", some "HEB", some "Lab", some "TEST", some "A"] = true ∧
      "KELAS" ∈ additionalCols ["KODE", "DESKRIPSI", "GROUP TRANSAKSI", "SATUAN", "KELAS"]) ∧
    (load_additional (buildRecord ["KODE", "DESKRIPSI", "GROUP TRANSAKSI", "SATUAN", "KELAS"]
        [some "LAB001", some "HEB", some "Lab", some "TEST", some "A"] "M" "U")).lookup "KELAS"
      = cellOf ["KODE", "DESKRIPSI", "GROUP TRANSAKSI", "SATUAN", "KELAS"]
          [some "LAB001", some "HEB", some "Lab", some "TEST", some "A"] "KELAS" :=
  ⟨⟨by decide, by decide, by decide, by decide, by decide⟩,
    (additional_data_roundtrip ⟨[], [], []⟩
      ⟨["KODE", "DESKRIPSI", "GROUP TRANSAKSI", "SATUAN", "KELAS"],
        [[some "LAB001", some "HEB", some "Lab", some "TEST", some "A"]]⟩
      "M" "U" "KELAS" [some "LAB001", some "HEB", some "Lab", some "TEST", some "A"]
      (by decide) (by decide) (by decide) (by decide) (by decide)).2⟩

/-- Claim C9: when the `k`-th row insert of a structurally valid upload
raises, the upload reports an error, no further row is processed (exactly
the first `k` records were sent to the store), nothing already durable is
lost, and the rows inserted before the fault are not rolled back — they stay
on the session and the next commit makes them durable. -/
theorem row_insert_failure_aborts_without_rollback (db : DBState) (f : InputFile)
    (mitra user : String) (k : Nat)
    (hmiss : findMissing f.header = none)
    (hk : k < (f.rows.filter (rowRetained f.header)).length) :
    (upload_excel db f mitra user (some k)).2 = .uploadError ∧
    (upload_excel db f mitra user (some k)).1.records = db.records ++ db.pending ∧
    (upload_excel db f mitra user (some k)).1.pending
      = (((f.rows.filter (rowRetained f.header)).map
          (fun r => buildRecord f.header r mitra user)).take k) ∧
    (commitDB (upload_excel db f mitra user (some k)).1).records
      = (db.records ++ db.pending) ++
        (((f.rows.filter (rowRetained f.header)).map
          (fun r => buildRecord f.header r mitra user)).take k) := by
  have hk2 : k < ((f.rows.filter (rowRetained f.header)).map
      (fun r => buildRecord f.header r mitra user)).length := by
    rw [List.length_map]
    exact hk
  unfold upload_excel
  rw [hmiss]
  refine ⟨?_, ?_, ?_, ?_⟩ <;> simp [commitDB, hk, hk2]

/-- Claim C9 witness: with two retained rows and a fault at the second
insert, the upload errors out, the first record stays pending (not rolled
back) and becomes durable at the next commit, and the second is never
inserted. -/
theorem row_insert_failure_aborts_without_rollback_witness :
    (findMissing ["KODE", "DESKRIPSI", "GROUP TRANSAKSI", "SATUAN"] = none ∧
      1 < (([[some "L1", some "D1", some "G1", some "S1"],
             [some "L2", some "D2", some "G2", some "S2"]] : List (List (Option String))).filter
            (rowRetained ["KODE", "DESKRIPSI", "GROUP TRANSAKSI", "SATUAN"])).length) ∧
    (upload_excel ⟨[], [], []⟩
        ⟨["KODE", "DESKRIPSI", "GROUP TRANSAKSI", "SATUAN"],
          [[some "L1", some "D1", some "G1", some "S1"],
           [some "L2", some "D2", some "G2", some "S2"]]⟩ "M" "U" (some 1)).2
      = .uploadError ∧
    (upload_excel ⟨[], [], []⟩
        ⟨["KODE", "DESKRIPSI", "GROUP TRANSAKSI", "SATUAN"],
          [[some "L1", some "D1", some "G1", some "S1"],
           [some "L2", some "D2", some "G2", some "S2"]]⟩ "M" "U" (some 1)).1.pending
      = [buildRecord ["KODE", "DESKRIPSI", "GROUP TRANSAKSI", "SATUAN"]
          [some "L1", some "D1", some "G1", some "S1"] "M" "U"] := by
  refine ⟨⟨by decide, by decide⟩, ?_, ?_⟩
  · exact (row_insert_failure_aborts_without_rollback ⟨[], [], []⟩
      ⟨["KODE", "DESKRIPSI", "GROUP TRANSAKSI", "SATUAN"],
        [[some "L1", some "D1", some "G1", some "S1"],
         [some "L2", some "D2", some "G2", some "S2"]]⟩ "M" "U" 1
      (by decide) (by decide)).1
  · rw [(row_insert_failure_aborts_without_rollback ⟨[], [], []⟩
      ⟨["KODE", "DESKRIPSI", "GROUP TRANSAKSI", "SATUAN"],
        [[some "L1", some "D1", some "G1", some "S1"],
         [some "L2", some "D2", some "G2", some "S2"]]⟩ "M" "U" 1
      (by decide) (by decide)).2.2.1]
    decide
